import Mathlib

/-!
Verification of the smart-interviewer backend services
(`backend/services/ai_service.py`, `question_generator.py`,
`answer_analyzer.py`, `report_generator.py`).

Python dictionaries and JSON values are shallowly embedded as the `Json`
inductive below; Python numbers are embedded as `ℚ` (the claims either
state exact rational facts or explicitly allow for rounding), Python
strings as `String`, and exceptions as `Except String`.  Each service
method that contains a `try/except` is embedded as a `match` on the
`Except`-valued result of its try-block.  The network call of a provider
is not executable; the generators therefore take the outcome of
`ai_service.generate_structured_response` — an `Except String Json`,
where `.error` is a raised exception (for example the
"No AI provider configured" failure) — as an explicit argument.
-/

set_option maxRecDepth 4000

namespace SmartInterviewer

/-- Embedded JSON / Python-dict values. -/
inductive Json where
  | null : Json
  | bool (b : Bool) : Json
  | num (q : ℚ) : Json
  | str (s : String) : Json
  | arr (xs : List Json) : Json
  | obj (kvs : List (String × Json)) : Json

/-- `d.get(k)` on an embedded dict (`none` on a non-dict). -/
def jGet (j : Json) (k : String) : Option Json :=
  match j with
  | Json.obj kvs => List.lookup k kvs
  | _ => none

/-- Top-level keys of an embedded dict, in insertion order. -/
def jKeys (j : Json) : List String :=
  match j with
  | Json.obj kvs => kvs.map Prod.fst
  | _ => []

/-- The rational stored under key `k` of an embedded dict, if any — a
decidable view used to state concrete numeric facts. -/
def num_at (j : Json) (k : String) : Option ℚ :=
  match jGet j k with
  | some (Json.num q) => some q
  | _ => none

/-- Python `d[k] = v`: replace in place if the key exists, else append. -/
def setKey : List (String × Json) → String → Json → List (String × Json)
  | [], k, v => [(k, v)]
  | (k1, v1) :: rest, k, v =>
    if k1 = k then (k, v) :: rest else (k1, v1) :: setKey rest k v

/-! ### Python string helpers -/

/-- Whitespace recognised by Python `str.split()` with no argument. -/
def is_py_space (c : Char) : Bool :=
  c = ' ' || c = '\t' || c = '\n' || c = '\r' || c = '\x0b' || c = '\x0c'

/-- Worker for `py_split`: `cur` holds the current word reversed. -/
def py_split_aux : List Char → List Char → List String
  | [], [] => []
  | [], cur => [String.mk cur.reverse]
  | c :: cs, cur =>
    if is_py_space c then
      match cur with
      | [] => py_split_aux cs []
      | _ => String.mk cur.reverse :: py_split_aux cs []
    else
      py_split_aux cs (c :: cur)

/-- Python `s.split()`: split on runs of whitespace, dropping empty pieces. -/
def py_split (s : String) : List String := py_split_aux s.data []

/-- `len(s.split())`. -/
def word_count (s : String) : ℕ := (py_split s).length

/-- Python `s.lower()` (ASCII, which is all the repository compares). -/
def to_lower (s : String) : String := String.map Char.toLower s

/-- Does `hay` start with `needle`? -/
def starts_with : List Char → List Char → Bool
  | _, [] => true
  | [], _ :: _ => false
  | h :: hs, n :: ns => h = n && starts_with hs ns

/-- Python `needle in hay` on strings: substring containment. -/
def contains_sub (hay needle : String) : Bool :=
  (List.range (hay.data.length + 1)).any (fun i => starts_with (hay.data.drop i) needle.data)

/-! ### The Structured-Response Contract (`ai_service.py` lines 69-98)

`generate_structured_response` receives the model's response text and
parses it in two stages: `json.loads` of the whole text, then `json.loads`
of the greedy first-`{`-to-last-`}` span found by
`re.search(r'\x7b.*\x7d', text, re.DOTALL)`.  `json_loads` below is an
executable model of `json.loads` (objects, arrays, strings with escapes,
numbers with fraction and exponent, `true`/`false`/`null`, surrounding
whitespace; no trailing garbage). -/

/-- The `Char`s `json.loads` treats as insignificant whitespace. -/
def is_json_ws (c : Char) : Bool :=
  c = ' ' || c = '\t' || c = '\n' || c = '\r'

def skip_ws : List Char → List Char
  | [] => []
  | c :: cs => if is_json_ws c then skip_ws cs else c :: cs

def lbrace : Char := Char.ofNat 123

def rbrace : Char := Char.ofNat 125

def nat_of_digits (ds : List Char) : ℕ :=
  ds.foldl (fun a c => a * 10 + (c.toNat - 48)) 0

def hex_val (c : Char) : Option ℕ :=
  if c.isDigit then some (c.toNat - 48)
  else if 'a' ≤ c ∧ c ≤ 'f' then some (c.toNat - 87)
  else if 'A' ≤ c ∧ c ≤ 'F' then some (c.toNat - 55)
  else none

/-- Single-character JSON string escapes. -/
def esc_char (c : Char) : Option Char :=
  if c = '"' then some '"'
  else if c = '\\' then some '\\'
  else if c = '/' then some '/'
  else if c = 'b' then some '\x08'
  else if c = 'f' then some '\x0c'
  else if c = 'n' then some '\n'
  else if c = 'r' then some '\r'
  else if c = 't' then some '\t'
  else none

/-- Parse the body of a JSON string (after the opening quote); returns the
content and the input following the closing quote. -/
def parse_string_core (fuel : ℕ) (cs : List Char) : Option (List Char × List Char) :=
  match fuel, cs with
  | 0, _ => none
  | _, [] => none
  | fuel + 1, c :: rest =>
    if c = '"' then some ([], rest)
    else if c = '\\' then
      match rest with
      | [] => none
      | e :: rest2 =>
        if e = 'u' then
          match rest2 with
          | h1 :: h2 :: h3 :: h4 :: rest3 =>
            match hex_val h1, hex_val h2, hex_val h3, hex_val h4 with
            | some a, some b, some c3, some d =>
              match parse_string_core fuel rest3 with
              | some (content, r) =>
                some (Char.ofNat (((a * 16 + b) * 16 + c3) * 16 + d) :: content, r)
              | none => none
            | _, _, _, _ => none
          | _ => none
        else
          match esc_char e with
          | some ec =>
            match parse_string_core fuel rest2 with
            | some (content, r) => some (ec :: content, r)
            | none => none
          | none => none
    else if c.toNat < 32 then none
    else
      match parse_string_core fuel rest with
      | some (content, r) => some (c :: content, r)
      | none => none

/-- Parse a JSON number (integer part, optional fraction, optional
exponent) into a rational. -/
def parse_number (cs : List Char) : Option (Json × List Char) :=
  let (neg, cs1) := match cs with
    | '-' :: t => (true, t)
    | _ => (false, cs)
  let (ip, cs2) := List.span (fun c => c.isDigit) cs1
  match ip with
  | [] => none
  | '0' :: _ :: _ => none      -- JSON forbids leading zeros
  | _ =>
    let step2 : Option (List Char × List Char) :=
      match cs2 with
      | '.' :: t =>
        let (ds, r) := List.span (fun c => c.isDigit) t
        match ds with
        | [] => none
        | _ => some (ds, r)
      | _ => some ([], cs2)
    match step2 with
    | none => none
    | some (fp, cs3) =>
      let step3 : Option (Int × List Char) :=
        match cs3 with
        | 'e' :: t | 'E' :: t =>
          let (esign, t2) : Int × List Char := match t with
            | '+' :: u => (1, u)
            | '-' :: u => (-1, u)
            | _ => (1, t)
          let (eds, r) := List.span (fun c => c.isDigit) t2
          match eds with
          | [] => none
          | _ => some (esign * (nat_of_digits eds : Int), r)
        | _ => some (0, cs3)
      match step3 with
      | none => none
      | some (e, cs4) =>
        let mant : ℚ :=
          (nat_of_digits ip : ℚ) + (nat_of_digits fp : ℚ) / (10 ^ fp.length : ℚ)
        let mant : ℚ := if neg then -mant else mant
        let v : ℚ := if 0 ≤ e then mant * (10 ^ e.toNat : ℚ) else mant / (10 ^ (-e).toNat : ℚ)
        some (Json.num v, cs4)

mutual

/-- Parse one JSON value (leading whitespace allowed). -/
def parse_value (fuel : ℕ) (cs0 : List Char) : Option (Json × List Char) :=
  match fuel with
  | 0 => none
  | fuel + 1 =>
    match skip_ws cs0 with
    | [] => none
    | c :: t =>
      if c = lbrace then
        match skip_ws t with
        | c2 :: t2 =>
          if c2 = rbrace then some (Json.obj [], t2)
          else parse_members fuel (c2 :: t2)
        | [] => none
      else if c = '[' then
        match skip_ws t with
        | ']' :: t2 => some (Json.arr [], t2)
        | t2 => parse_elements fuel t2
      else if c = '"' then
        match parse_string_core fuel t with
        | some (content, rest) => some (Json.str (String.mk content), rest)
        | none => none
      else
        match c :: t with
        | 't' :: 'r' :: 'u' :: 'e' :: r => some (Json.bool true, r)
        | 'f' :: 'a' :: 'l' :: 's' :: 'e' :: r => some (Json.bool false, r)
        | 'n' :: 'u' :: 'l' :: 'l' :: r => some (Json.null, r)
        | cs => parse_number cs

/-- Parse the members of an object, positioned at the first key. -/
def parse_members (fuel : ℕ) (cs : List Char) : Option (Json × List Char) :=
  match fuel, cs with
  | 0, _ => none
  | fuel + 1, '"' :: t =>
    match parse_string_core fuel t with
    | some (kcs, r1) =>
      match skip_ws r1 with
      | ':' :: r3 =>
        match parse_value fuel r3 with
        | some (v, r4) =>
          match skip_ws r4 with
          | ',' :: r6 =>
            match parse_members fuel (skip_ws r6) with
            | some (Json.obj ms, r7) => some (Json.obj ((String.mk kcs, v) :: ms), r7)
            | _ => none
          | c :: r6 =>
            if c = rbrace then some (Json.obj [(String.mk kcs, v)], r6) else none
          | [] => none
        | none => none
      | _ => none
    | none => none
  | _, _ => none

/-- Parse the elements of an array, positioned at the first element. -/
def parse_elements (fuel : ℕ) (cs : List Char) : Option (Json × List Char) :=
  match fuel with
  | 0 => none
  | fuel + 1 =>
    match parse_value fuel cs with
    | some (v, r) =>
      match skip_ws r with
      | ',' :: r2 =>
        match parse_elements fuel r2 with
        | some (Json.arr vs, r3) => some (Json.arr (v :: vs), r3)
        | _ => none
      | ']' :: r2 => some (Json.arr [v], r2)
      | _ => none
    | none => none

end

/-- Model of `json.loads`: one JSON value with surrounding whitespace and
nothing else. -/
def json_loads (s : String) : Option Json :=
  match parse_value (s.data.length + 8) s.data with
  | some (v, rest) => if skip_ws rest = [] then some v else none
  | none => none

/-- `re.search(r'\x7b.*\x7d', text, re.DOTALL)`: the greedy span from the
first `\x7b` to the last `\x7d`, provided the latter comes after the
former. -/
def extract_brace_span (s : String) : Option String :=
  let cs := s.data
  match List.findIdx? (fun c => c = lbrace) cs with
  | none => none
  | some i =>
    match List.findIdx? (fun c => c = rbrace) cs.reverse with
    | none => none
    | some k =>
      let j := cs.length - 1 - k
      if i < j then some (String.mk ((cs.drop i).take (j - i + 1))) else none

/-- `GeminiProvider.generate_structured_response`, lines 82-94, as a
function of the model's response text (the HTTP call that produces the
text is outside the embedding).  Stage 1: direct `json.loads`; stage 2:
`json.loads` of the extracted brace span.  A stage-2 parse failure and a
missing span both raise, i.e. return `.error`. -/
def generate_structured_response (response_text : String) : Except String Json :=
  match json_loads response_text with
  | some j => Except.ok j
  | none =>
    match extract_brace_span response_text with
    | some span =>
      match json_loads span with
      | some j => Except.ok j
      | none => Except.error "JSONDecodeError"
    | none => Except.error "Could not parse structured response as JSON"

/-! ### `AIService` (`ai_service.py` lines 240-336) -/

/-- An instantiated provider adapter (`provider_class(api_key, model)`). -/
structure ProviderInstance where
  provider : String
  api_key : String
  model : String
  deriving DecidableEq

/-- The registry's mutable fields `current_provider` / `current_instance`. -/
structure AIServiceState where
  current_provider : Option String
  current_instance : Option ProviderInstance
  deriving DecidableEq

/-- Keys of the `self.providers` dict. -/
def providers_names : List String := ["gemini", "openai", "anthropic"]

/-- The `(name, default_model)` pairs of `get_available_providers`
(display names and descriptions omitted: nothing reads them). -/
def available_provider_models : List (String × String) :=
  [("gemini", "gemini-2.5-flash"),
   ("openai", "gpt-3.5-turbo"),
   ("anthropic", "claude-3-sonnet-20240229")]

/-- `next(p for p in self.get_available_providers() if p["name"] == provider)["default_model"]`;
the `StopIteration` case is unreachable because `configure_provider`
checks membership in `providers_names` first. -/
def default_model_of (provider : String) : String :=
  (List.lookup provider available_provider_models).getD ""

/-- `validate_config({"api_key": api_key})`: every provider implements it
as `bool(config.get("api_key"))`, i.e. the key is a non-empty string. -/
def validate_config (api_key : String) : Bool := api_key ≠ ""

/-- `AIService.configure_provider` (lines 285-317).  Returns the boolean
result together with the registry state after the call.  `model = none`
models Python `model=None`; the empty string is also falsy, so both fall
back to the provider's default model. -/
def configure_provider (s : AIServiceState) (provider api_key : String)
    (model : Option String) : Bool × AIServiceState :=
  if provider ∉ providers_names then (false, s)
  else
    let m : String :=
      match model with
      | none => default_model_of provider
      | some mm => if mm = "" then default_model_of provider else mm
    let inst : ProviderInstance := ⟨provider, api_key, m⟩
    if ¬ validate_config api_key then (false, s)
    else (true, ⟨some provider, some inst⟩)

/-! ### `QuestionGenerator` (`question_generator.py`) -/

/-- First fallback question of the `"technical"` catalog entry. -/
def technical_q1 : Json := Json.obj
  [("question", Json.str "Can you walk me through your approach to solving a complex technical problem?"),
   ("category", Json.str "Technical"),
   ("difficulty", Json.str "medium"),
   ("purpose", Json.str "Assess problem-solving methodology"),
   ("follow_up_suggestions", Json.arr
     [Json.str "What specific tools or technologies did you use?",
      Json.str "How did you handle unexpected challenges?"])]

/-- Second fallback question of the `"technical"` catalog entry. -/
def technical_q2 : Json := Json.obj
  [("question", Json.str "Describe a time when you had to learn a new technology quickly. How did you approach it?"),
   ("category", Json.str "Technical"),
   ("difficulty", Json.str "easy"),
   ("purpose", Json.str "Evaluate learning agility"),
   ("follow_up_suggestions", Json.arr
     [Json.str "What resources did you use?",
      Json.str "How did you ensure quality while learning quickly?"])]

/-- First fallback question of the `"behavioral"` catalog entry. -/
def behavioral_q1 : Json := Json.obj
  [("question", Json.str "Tell me about a time when you had to work with a difficult team member. How did you handle it?"),
   ("category", Json.str "Behavioral"),
   ("difficulty", Json.str "medium"),
   ("purpose", Json.str "Assess conflict resolution skills"),
   ("follow_up_suggestions", Json.arr
     [Json.str "What was the outcome?",
      Json.str "What did you learn from this experience?"])]

/-- Second fallback question of the `"behavioral"` catalog entry. -/
def behavioral_q2 : Json := Json.obj
  [("question", Json.str "Describe a situation where you had to meet a tight deadline. How did you manage it?"),
   ("category", Json.str "Behavioral"),
   ("difficulty", Json.str "easy"),
   ("purpose", Json.str "Evaluate time management and stress handling"),
   ("follow_up_suggestions", Json.arr
     [Json.str "What strategies did you use?",
      Json.str "How did you ensure quality wasn\x27t compromised?"])]

/-- First fallback question of the `"general"` catalog entry. -/
def general_q1 : Json := Json.obj
  [("question", Json.str "Tell me about yourself and your professional background."),
   ("category", Json.str "General"),
   ("difficulty", Json.str "easy"),
   ("purpose", Json.str "Get overview of candidate\x27s experience"),
   ("follow_up_suggestions", Json.arr
     [Json.str "What aspects of your background are most relevant to this role?",
      Json.str "What are you most proud of in your career?"])]

/-- Second fallback question of the `"general"` catalog entry. -/
def general_q2 : Json := Json.obj
  [("question", Json.str "Why are you interested in this position and our company?"),
   ("category", Json.str "General"),
   ("difficulty", Json.str "easy"),
   ("purpose", Json.str "Assess motivation and company research"),
   ("follow_up_suggestions", Json.arr
     [Json.str "What specific aspects of our company culture appeal to you?",
      Json.str "How do you see yourself contributing to our team?"])]

/-- The `fallback_questions` dict of `_get_fallback_questions`
(lines 218-285). -/
def fallback_questions_catalog : List (String × List Json) :=
  [("technical", [technical_q1, technical_q2]),
   ("behavioral", [behavioral_q1, behavioral_q2]),
   ("general", [general_q1, general_q2])]

/-- `QuestionGenerator._get_fallback_questions`:
`fallback_questions.get(question_type, fallback_questions["general"])[:count]`. -/
def get_fallback_questions (question_type : String) (count : ℕ) : List Json :=
  ((List.lookup question_type fallback_questions_catalog).getD
    [general_q1, general_q2]).take count

/-- Keys of the `type_instructions` dict in `_create_question_prompt`
(lines 109-130); the prompt prose itself is not modelled, no claim reads
it. -/
def type_instruction_keys : List String :=
  ["technical", "behavioral", "leadership", "general", "culture_fit"]

/-- Try-block of `QuestionGenerator.generate_questions` given the outcome
of the structured-response call: `response.get("questions", [])`, which
raises `AttributeError` when the parsed response is not a dict. -/
def generate_questions_try (outcome : Except String Json) : Except String Json := do
  let j ← outcome
  match j with
  | Json.obj kvs => Except.ok ((List.lookup "questions" kvs).getD (Json.arr []))
  | _ => Except.error "AttributeError"

/-- `QuestionGenerator.generate_questions` (lines 13-68) as a function of
the structured-response outcome; any exception is caught and replaced by
the fallback catalog. -/
def generate_questions (question_type : String) (count : ℕ)
    (outcome : Except String Json) : Except String Json :=
  match generate_questions_try outcome with
  | Except.ok v => Except.ok v
  | Except.error _ => Except.ok (Json.arr (get_fallback_questions question_type count))

/-- `QuestionGenerator._get_fallback_followup_questions` (lines 290-308). -/
def fallback_followup_questions : Json := Json.arr
  [Json.obj
    [("question", Json.str "Can you provide a specific example of that?"),
     ("relevance", Json.str "Asks for concrete evidence"),
     ("purpose", Json.str "Verify claims with specific details")],
   Json.obj
    [("question", Json.str "What challenges did you face in that situation?"),
     ("relevance", Json.str "Explores problem-solving approach"),
     ("purpose", Json.str "Understand how candidate handles obstacles")],
   Json.obj
    [("question", Json.str "What would you do differently if you faced that situation again?"),
     ("relevance", Json.str "Tests learning and self-reflection"),
     ("purpose", Json.str "Assess growth mindset and continuous improvement")]]

/-- Try-block of `generate_followup_questions`:
`response.get("followup_questions", [])`. -/
def generate_followup_questions_try (outcome : Except String Json) : Except String Json := do
  let j ← outcome
  match j with
  | Json.obj kvs => Except.ok ((List.lookup "followup_questions" kvs).getD (Json.arr []))
  | _ => Except.error "AttributeError"

/-- `QuestionGenerator.generate_followup_questions` (lines 149-213) as a
function of the structured-response outcome (the question, answer and
history only shape the prompt). -/
def generate_followup_questions (outcome : Except String Json) : Except String Json :=
  match generate_followup_questions_try outcome with
  | Except.ok v => Except.ok v
  | Except.error _ => Except.ok fallback_followup_questions

/-! ### `AnswerAnalyzer` (`answer_analyzer.py`) -/

/-- `_estimate_speech_duration`: `max(1, int((words / 150) * 60))`. -/
def estimate_speech_duration (text : String) : ℕ :=
  max 1 (word_count text * 60 / 150)

/-- `_classify_question_type` (lines 144-157). -/
def classify_question_type (question : String) : String :=
  let ql := to_lower question
  if ["tell me about", "describe", "explain", "walk me through"].any
      (fun w => contains_sub ql w) then "behavioral"
  else if ["how would you", "what would you", "design", "implement", "solve"].any
      (fun w => contains_sub ql w) then "technical"
  else if ["why", "motivation", "interest", "passion"].any
      (fun w => contains_sub ql w) then "motivational"
  else if ["strengths", "weaknesses", "skills", "abilities"].any
      (fun w => contains_sub ql w) then "self-assessment"
  else "general"

/-- Number of fields `re.split(r'[.!?]+', answer)` yields: one more than
the number of maximal runs of sentence terminators. -/
def is_sentence_sep (c : Char) : Bool := c = '.' || c = '!' || c = '?'

def count_sep_runs : List Char → Bool → ℕ
  | [], _ => 0
  | c :: cs, in_run =>
    if is_sentence_sep c then
      (if in_run then 0 else 1) + count_sep_runs cs true
    else
      count_sep_runs cs false

def sentence_count (s : String) : ℕ := count_sep_runs s.data false + 1

/-- `\w`-characters for the `\b` boundaries of the technical-terms regex. -/
def is_word_char (c : Char) : Bool := c.isAlphanum || c = '_'

/-- The terms of `re.findall(r'\b(API|database|...)\b', answer, re.IGNORECASE)`,
lowercased. -/
def technical_terms_list : List String :=
  ["api", "database", "algorithm", "framework", "architecture",
   "implementation", "optimization", "scalability", "security", "performance"]

/-- Occurrences of the technical terms in `answer`, case-insensitively and
bounded by non-word characters on both sides, as the regex counts them. -/
def technical_term_count (answer : String) : ℕ :=
  let hay := (to_lower answer).data
  ((List.range hay.length).filter (fun i =>
    (decide (i = 0) || ! is_word_char (hay.getD (i - 1) ' ')) &&
    technical_terms_list.any (fun t =>
      starts_with (hay.drop i) t.data &&
      ! is_word_char (hay.getD (i + t.data.length) ' ')))).length

/-- `_assess_answer_complexity` (lines 159-173). -/
def assess_answer_complexity (answer : String) : String :=
  let wc := word_count answer
  let sc := sentence_count answer
  let avg_sentence_length : ℚ := (wc : ℚ) / (max sc 1 : ℚ)
  let technical_terms := technical_term_count answer
  if wc > 100 ∧ avg_sentence_length > 15 ∧ technical_terms > 2 then "high"
  else if wc > 50 ∧ avg_sentence_length > 10 then "medium"
  else "low"

/-- The `analysis_metadata` dict added by both paths of `analyze_answer`. -/
def analysis_metadata_json (question answer : String) : Json := Json.obj
  [("answer_length", Json.num (word_count answer : ℚ)),
   ("answer_duration_estimate", Json.num (estimate_speech_duration answer : ℚ)),
   ("question_type", Json.str (classify_question_type question)),
   ("answer_complexity", Json.str (assess_answer_complexity answer))]

/-- The word-count bands of `_get_fallback_analysis` (lines 182-197):
`(overall_rating, completeness, clarity)`. -/
def fallback_bands (wc : ℕ) : ℚ × ℚ × ℚ :=
  if wc < 10 then (3, 2, 4)
  else if wc < 30 then (5, 4, 6)
  else if wc < 60 then (7, 7, 7)
  else (8, 8, 8)

/-- `has_example` indicator of `_get_fallback_analysis` (line 200). -/
def has_example (answer : String) : Bool :=
  ["example", "for instance", "specifically", "when"].any
    (fun w => contains_sub (to_lower answer) w)

/-- `has_technical_terms` indicator of `_get_fallback_analysis` (line 201). -/
def has_technical_terms (answer : String) : Bool :=
  ["api", "database", "system", "process", "method"].any
    (fun w => contains_sub (to_lower answer) w)

/-- `relevance = 7 if has_example else 5`. -/
def fallback_relevance (answer : String) : ℚ :=
  if has_example answer then 7 else 5

/-- `specificity = 8 if has_technical_terms else 6`. -/
def fallback_specificity (answer : String) : ℚ :=
  if has_technical_terms answer then 8 else 6

/-- `professionalism = 8 if len(answer) > 50 else 6` (character length). -/
def fallback_professionalism (answer : String) : ℚ :=
  if answer.length > 50 then 8 else 6

/-- `AnswerAnalyzer._get_fallback_analysis` (lines 175-238). -/
def get_fallback_analysis (question answer : String) : Json :=
  Json.obj
    [("overall_rating", Json.num (fallback_bands (word_count answer)).1),
     ("detailed_scores", Json.obj
       [("relevance", Json.num (fallback_relevance answer)),
        ("completeness", Json.num (fallback_bands (word_count answer)).2.1),
        ("clarity", Json.num (fallback_bands (word_count answer)).2.2),
        ("specificity", Json.num (fallback_specificity answer)),
        ("professionalism", Json.num (fallback_professionalism answer))]),
     ("strengths", Json.arr
       [Json.str (if word_count answer > 0 then "Provided a response" else "Attempted to answer"),
        Json.str (if 20 ≤ word_count answer ∧ word_count answer ≤ 100 then "Appropriate length"
                  else if word_count answer > 100 then "Good length"
                  else "Could be more detailed")]),
     ("weaknesses", Json.arr
       [Json.str (if has_example answer then "Good use of examples"
                  else "Could provide more specific examples"),
        Json.str (if word_count answer < 30 then "Could be more detailed"
                  else "Good level of detail")]),
     ("suggestions", Json.arr
       [Json.str "Provide specific examples to support your points",
        Json.str "Elaborate on your experience and achievements",
        Json.str "Use the STAR method (Situation, Task, Action, Result) for behavioral questions"]),
     ("key_points", Json.arr (((py_split answer).take 10).map Json.str)),
     ("sentiment", Json.str (if (fallback_bands (word_count answer)).1 ≥ 7 then "positive"
                             else if (fallback_bands (word_count answer)).1 ≥ 5 then "neutral"
                             else "negative")),
     ("confidence_level", Json.str (if (fallback_bands (word_count answer)).1 ≥ 8 then "high"
                                    else if (fallback_bands (word_count answer)).1 ≥ 6 then "medium"
                                    else "low")),
     ("analysis_metadata", analysis_metadata_json question answer)]

/-- Try-block of `analyze_answer`: merge `analysis_metadata` into the
parsed structured response; item assignment on a non-dict raises
`TypeError`. -/
def analyze_answer_try (question answer : String)
    (outcome : Except String Json) : Except String Json := do
  let j ← outcome
  match j with
  | Json.obj kvs =>
    Except.ok (Json.obj (setKey kvs "analysis_metadata" (analysis_metadata_json question answer)))
  | _ => Except.error "TypeError"

/-- `AnswerAnalyzer.analyze_answer` (lines 14-92) as a function of the
structured-response outcome; any exception is caught and replaced by the
fallback analysis. -/
def analyze_answer (question answer : String)
    (outcome : Except String Json) : Except String Json :=
  match analyze_answer_try question answer outcome with
  | Except.ok v => Except.ok v
  | Except.error _ => Except.ok (get_fallback_analysis question answer)

/-! ### Rounding (`round(x, 2)` and the `:.1f` format)

Python's `round` and `format` round half to even.  Floating-point
representation error is far below the 2-decimal granularity for the
rating arithmetic of this repository, so the rational model below is
exact at that granularity. -/

/-- Round half to even, to an integer. -/
def roundHalfEven (q : ℚ) : ℤ :=
  if q - ⌊q⌋ < 1 / 2 then ⌊q⌋
  else if 1 / 2 < q - ⌊q⌋ then ⌊q⌋ + 1
  else if ⌊q⌋ % 2 = 0 then ⌊q⌋ else ⌊q⌋ + 1

/-- Python `round(q, 2)`. -/
def pyRound2 (q : ℚ) : ℚ := (roundHalfEven (100 * q) : ℚ) / 100

/-- Python `f"{q:.1f}"` for the non-negative averages it is applied to. -/
def format_1f (q : ℚ) : String :=
  let n := roundHalfEven (10 * q)
  (if n < 0 then "-" else "") ++ toString (n.natAbs / 10) ++ "." ++ toString (n.natAbs % 10)

/-! ### `ReportGenerator` (`report_generator.py`) -/

/-- The `interview_data` bundle `generate_report` receives.  Questions
and answers may be either dicts or plain strings, as the code allows. -/
structure InterviewData where
  questions : List Json
  answers : List Json
  ratings : List ℚ
  duration : ℤ

/-- The six structured-response outcomes a report generation consumes,
one per `_generate_*` section helper. -/
structure ReportOutcomes where
  executive_summary : Except String Json
  detailed_analysis : Except String Json
  strengths_weaknesses : Except String Json
  recommendations : Except String Json
  next_steps : Except String Json
  overall_assessment : Except String Json

/-- `sum(ratings) / len(ratings) if ratings else 0`. -/
def average_of (ratings : List ℚ) : ℚ :=
  if ratings.isEmpty then 0 else ratings.sum / (ratings.length : ℚ)

/-- `questions_per_minute`: `len(questions) / (duration // 60000) if duration > 0 else 0`.
The guard tests `duration`, not the divisor `duration // 60000`, so any
duration in (0, 60000) divides by zero. -/
def questions_per_minute (nq : ℕ) (duration : ℤ) : Except String ℚ :=
  if 0 < duration then
    if duration.fdiv 60000 = 0 then Except.error "ZeroDivisionError"
    else Except.ok ((nq : ℚ) / ((duration.fdiv 60000 : ℤ) : ℚ))
  else Except.ok 0

/-- `ReportGenerator._calculate_metrics` (lines 347-379).  `duration` is
in milliseconds; `//` is Python floor division. -/
def calculate_metrics (questions answers : List Json) (ratings : List ℚ)
    (duration : ℤ) : Except String Json :=
  match ratings with
  | [] => Except.ok (Json.obj [("error", Json.str "No ratings available")])
  | r :: rs => do
    let rats := r :: rs
    let avg_rating := rats.sum / (rats.length : ℚ)
    let max_rating := rs.foldl max r
    let min_rating := rs.foldl min r
    let variance := (rats.map (fun x => (x - avg_rating) ^ 2)).sum / (rats.length : ℚ)
    let consistency := 10 - min 9 variance
    let excellent := (rats.filter (fun x => decide (x ≥ 8))).length
    let good := (rats.filter (fun x => decide (6 ≤ x) && decide (x < 8))).length
    let poor := (rats.filter (fun x => decide (x < 6))).length
    let qpm ← questions_per_minute questions.length duration
    Except.ok (Json.obj
      [("average_rating", Json.num (pyRound2 avg_rating)),
       ("max_rating", Json.num max_rating),
       ("min_rating", Json.num min_rating),
       ("consistency_score", Json.num (pyRound2 consistency)),
       ("total_questions", Json.num (questions.length : ℚ)),
       ("total_answers", Json.num (answers.length : ℚ)),
       ("response_rate", Json.num (if questions.isEmpty then 0
                                   else (answers.length : ℚ) / (questions.length : ℚ))),
       ("excellent_responses", Json.num (excellent : ℚ)),
       ("good_responses", Json.num (good : ℚ)),
       ("poor_responses", Json.num (poor : ℚ)),
       ("duration_minutes", Json.num (if duration ≠ 0 then ((duration.fdiv 60000 : ℤ) : ℚ) else 0)),
       ("questions_per_minute", Json.num qpm)])

/-- `question.get('text', question) if isinstance(question, dict) else question`
(and the analogous `answer.get('answer', answer)`). -/
def qa_text (j : Json) (key : String) : Json :=
  match j with
  | Json.obj kvs => (List.lookup key kvs).getD (Json.obj kvs)
  | _ => j

/-- `_get_rating_category` (lines 398-407). -/
def get_rating_category (r : ℚ) : String :=
  if r ≥ 8 then "Excellent"
  else if r ≥ 6 then "Good"
  else if r ≥ 4 then "Average"
  else "Poor"

/-- `_extract_key_insights` (lines 409-422): keyword scan over
`answer.lower()`; a non-string answer raises `AttributeError`. -/
def extract_key_insights (answer : Json) : Except String (List String) :=
  match answer with
  | Json.str s =>
    let low := to_lower s
    Except.ok
      (((if contains_sub low "experience" then ["Mentioned relevant experience"] else []) ++
        (if contains_sub low "challenge" then ["Discussed challenges"] else []) ++
        (if contains_sub low "team" then ["Referenced teamwork"] else []) ++
        (if contains_sub low "learn" then ["Showed learning mindset"] else [])).take 3)
  | _ => Except.error "AttributeError"

/-- `zip(questions, answers, ratings)`. -/
def zip3 : List α → List β → List γ → List (α × β × γ)
  | a :: as_, b :: bs, c :: cs => (a, b, c) :: zip3 as_ bs cs
  | _, _, _ => []

/-- `_generate_qa_analysis` (lines 381-396). -/
def generate_qa_analysis (questions answers : List Json)
    (ratings : List ℚ) : Except String Json := do
  let items ← (List.enum (zip3 questions answers ratings)).mapM (fun p => do
    let insights ← extract_key_insights (qa_text p.2.2.1 "answer")
    Except.ok (Json.obj
      [("question_number", Json.num ((p.1 : ℚ) + 1)),
       ("question", qa_text p.2.1 "text"),
       ("answer", qa_text p.2.2.1 "answer"),
       ("rating", Json.num p.2.2.2),
       ("rating_category", Json.str (get_rating_category p.2.2.2)),
       ("key_insights", Json.arr (insights.map Json.str))]))
  Except.ok (Json.arr items)

/-- `_get_fallback_executive_summary` (lines 494-502). -/
def get_fallback_executive_summary (ratings : List ℚ) : Json := Json.obj
  [("summary", Json.str ("Interview completed with average rating of "
      ++ format_1f (average_of ratings) ++ "/10. Manual review recommended.")),
   ("key_highlights", Json.arr [Json.str "Interview conducted"]),
   ("concerns", Json.arr [Json.str "AI analysis unavailable"]),
   ("recommendation", Json.str "Manual review required")]

/-- `_generate_executive_summary` (lines 60-107): the AI response on
success, the fallback on any exception. -/
def generate_executive_summary (outcome : Except String Json)
    (ratings : List ℚ) : Json :=
  match outcome with
  | Except.ok j => j
  | Except.error _ => get_fallback_executive_summary ratings

/-- `_get_fallback_detailed_analysis` (lines 504-510). -/
def get_fallback_detailed_analysis : Json := Json.obj
  [("communication_analysis", Json.str "Manual review required"),
   ("technical_analysis", Json.str "Manual review required"),
   ("experience_analysis", Json.str "Manual review required")]

/-- `_generate_detailed_analysis` (lines 109-154). -/
def generate_detailed_analysis (outcome : Except String Json) : Json :=
  match outcome with
  | Except.ok j => j
  | Except.error _ => get_fallback_detailed_analysis

/-- `_get_fallback_strengths_weaknesses` (lines 512-517). -/
def get_fallback_strengths_weaknesses : Json := Json.obj
  [("strengths", Json.arr [Json.obj
     [("strength", Json.str "Completed interview"),
      ("evidence", Json.str "Participated in all questions"),
      ("impact", Json.str "Showed engagement")]]),
   ("weaknesses", Json.arr [Json.obj
     [("weakness", Json.str "Analysis pending"),
      ("evidence", Json.str "AI analysis unavailable"),
      ("improvement_suggestion", Json.str "Manual review required")]])]

/-- `_generate_strengths_weaknesses` (lines 156-214). -/
def generate_strengths_weaknesses (outcome : Except String Json) : Json :=
  match outcome with
  | Except.ok j => j
  | Except.error _ => get_fallback_strengths_weaknesses

/-- `_get_fallback_recommendations` (lines 519-531). -/
def get_fallback_recommendations (avg_rating : ℚ) : Json := Json.obj
  [("recommendation", Json.str (if avg_rating ≥ 7 then "Hire"
                                else if avg_rating ≥ 5 then "Consider"
                                else "No Hire")),
   ("rationale", Json.str ("Based on average rating of "
      ++ format_1f avg_rating ++ "/10"))]

/-- `_generate_recommendations` (lines 216-265). -/
def generate_recommendations (outcome : Except String Json)
    (ratings : List ℚ) : Json :=
  match outcome with
  | Except.ok j => j
  | Except.error _ => get_fallback_recommendations (average_of ratings)

/-- `_get_fallback_next_steps` (lines 533-548); its `avg_rating` argument
is unused by the code. -/
def get_fallback_next_steps : Json := Json.arr
  [Json.obj
    [("step", Json.str "Manual review of interview responses"),
     ("timeline", Json.str "Within 2 business days"),
     ("priority", Json.str "High"),
     ("description", Json.str "Review all Q&A responses manually")],
   Json.obj
    [("step", Json.str "Reference checks"),
     ("timeline", Json.str "Within 1 week"),
     ("priority", Json.str "Medium"),
     ("description", Json.str "Contact provided references")]]

/-- `_generate_next_steps` (lines 267-306): `response.get("next_steps", [])`
on success (an `AttributeError` on a non-dict also lands in the fallback). -/
def generate_next_steps (outcome : Except String Json)
    (_ratings : List ℚ) : Json :=
  match outcome with
  | Except.ok (Json.obj kvs) => (List.lookup "next_steps" kvs).getD (Json.arr [])
  | Except.ok _ => get_fallback_next_steps
  | Except.error _ => get_fallback_next_steps

/-- `_get_fallback_overall_assessment` (lines 550-558). -/
def get_fallback_overall_assessment (metrics : Json) : Json := Json.obj
  [("overall_score", (jGet metrics "average_rating").getD (Json.num 5)),
   ("performance_level", Json.str "Needs Review"),
   ("key_takeaways", Json.arr [Json.str "Manual analysis required"]),
   ("risk_assessment", Json.str "Unknown"),
   ("success_potential", Json.str "To be determined")]

/-- `_generate_overall_assessment` (lines 308-345). -/
def generate_overall_assessment (outcome : Except String Json)
    (metrics : Json) : Json :=
  match outcome with
  | Except.ok j => j
  | Except.error _ => get_fallback_overall_assessment metrics

/-- The try-block of `generate_report` (lines 17-54): sections, metrics,
overall assessment and Q&A analysis, assembled into the nine-section
report dict.  `now` stands for `datetime.now().isoformat()` and
`provider_name` for `ai_service.get_current_provider()`. -/
def primary_report (d : InterviewData) (o : ReportOutcomes)
    (now provider_name : String) : Except String Json := do
  let executive_summary := generate_executive_summary o.executive_summary d.ratings
  let detailed_analysis := generate_detailed_analysis o.detailed_analysis
  let strengths_weaknesses := generate_strengths_weaknesses o.strengths_weaknesses
  let recommendations := generate_recommendations o.recommendations d.ratings
  let next_steps := generate_next_steps o.next_steps d.ratings
  let metrics ← calculate_metrics d.questions d.answers d.ratings d.duration
  let overall_assessment := generate_overall_assessment o.overall_assessment metrics
  let qa ← generate_qa_analysis d.questions d.answers d.ratings
  Except.ok (Json.obj
    [("report_metadata", Json.obj
       [("generated_at", Json.str now),
        ("interview_duration", Json.num (d.duration : ℚ)),
        ("total_questions", Json.num (d.questions.length : ℚ)),
        ("total_answers", Json.num (d.answers.length : ℚ)),
        ("ai_provider", Json.str provider_name)]),
     ("executive_summary", executive_summary),
     ("overall_assessment", overall_assessment),
     ("metrics", metrics),
     ("detailed_analysis", detailed_analysis),
     ("strengths_weaknesses", strengths_weaknesses),
     ("recommendations", recommendations),
     ("next_steps", next_steps),
     ("qa_analysis", qa)])

/-- `_get_fallback_report` (lines 462-492): five sections only, and it
recomputes `_calculate_metrics`, so it raises wherever that raises. -/
def get_fallback_report (d : InterviewData) (now : String) : Except String Json := do
  let metrics ← calculate_metrics d.questions d.answers d.ratings d.duration
  Except.ok (Json.obj
    [("report_metadata", Json.obj
       [("generated_at", Json.str now),
        ("status", Json.str "fallback_report")]),
     ("executive_summary", Json.obj
       [("summary", Json.str "Interview completed. Please review individual Q&A for detailed assessment."),
        ("key_highlights", Json.arr [Json.str "Interview conducted successfully"]),
        ("concerns", Json.arr []),
        ("recommendation", Json.str "Manual review required")]),
     ("overall_assessment", Json.obj
       [("overall_score", Json.num 5),
        ("performance_level", Json.str "Needs Review"),
        ("key_takeaways", Json.arr [Json.str "Manual analysis required"]),
        ("risk_assessment", Json.str "Unknown"),
        ("success_potential", Json.str "To be determined")]),
     ("metrics", metrics),
     ("recommendations", Json.obj
       [("recommendation", Json.str "Manual Review Required"),
        ("rationale", Json.str "AI analysis unavailable")])])

/-- `ReportGenerator.generate_report` (lines 14-58): the primary report,
with any exception caught and replaced by the whole-report fallback —
whose own exceptions are not caught and propagate to the caller. -/
def generate_report (d : InterviewData) (o : ReportOutcomes)
    (now provider_name : String) : Except String Json :=
  match primary_report d o now provider_name with
  | Except.ok r => Except.ok r
  | Except.error _ => get_fallback_report d now

/-! ### Facts about the rounding model -/

theorem roundHalfEven_ge (n : ℤ) (q : ℚ) (h : (n : ℚ) ≤ q) :
    n ≤ roundHalfEven q := by
  have hf : n ≤ ⌊q⌋ := Int.le_floor.mpr h
  unfold roundHalfEven
  split_ifs <;> omega

theorem roundHalfEven_le (n : ℤ) (q : ℚ) (h : q ≤ (n : ℚ)) :
    roundHalfEven q ≤ n := by
  have hf : ⌊q⌋ ≤ n := by
    have h' := Int.floor_le_floor h
    simpa using h'
  have hq : (⌊q⌋ : ℚ) ≤ q := Int.floor_le q
  rcases lt_or_eq_of_le hf with hlt | heq
  · unfold roundHalfEven
    split_ifs <;> omega
  · have hqn : q = (n : ℚ) := by
      apply le_antisymm h
      calc (n : ℚ) = (⌊q⌋ : ℚ) := by exact_mod_cast heq.symm
        _ ≤ q := hq
    have hr : q - (⌊q⌋ : ℚ) = 0 := by
      rw [hqn]
      simp
    unfold roundHalfEven
    rw [hr]
    norm_num
    exact hf

theorem abs_roundHalfEven_sub (q : ℚ) : |(roundHalfEven q : ℚ) - q| ≤ 1 / 2 := by
  have h1 : (⌊q⌋ : ℚ) ≤ q := Int.floor_le q
  have h2 : q < (⌊q⌋ : ℚ) + 1 := Int.lt_floor_add_one q
  unfold roundHalfEven
  split_ifs with ha hb hc <;> rw [abs_le] <;> constructor <;> push_cast <;> linarith

theorem abs_pyRound2_sub (q : ℚ) : |pyRound2 q - q| ≤ 1 / 200 := by
  have h := abs_roundHalfEven_sub (100 * q)
  rw [abs_le] at h ⊢
  have key : pyRound2 q - q = ((roundHalfEven (100 * q) : ℚ) - 100 * q) / 100 := by
    unfold pyRound2; ring
  constructor <;> rw [key] <;> [linarith [h.1]; linarith [h.2]]

theorem pyRound2_mem_Icc (q : ℚ) (h1 : 1 ≤ q) (h10 : q ≤ 10) :
    1 ≤ pyRound2 q ∧ pyRound2 q ≤ 10 := by
  have a := roundHalfEven_ge 100 (100 * q) (by push_cast; linarith)
  have b := roundHalfEven_le 1000 (100 * q) (by push_cast; linarith)
  have a' : (100 : ℚ) ≤ (roundHalfEven (100 * q) : ℚ) := by exact_mod_cast a
  have b' : ((roundHalfEven (100 * q) : ℚ)) ≤ 1000 := by exact_mod_cast b
  unfold pyRound2
  constructor <;> linarith

theorem list_sum_sq_nonneg (l : List ℚ) (c : ℚ) :
    0 ≤ (l.map (fun x => (x - c) ^ 2)).sum := by
  induction l with
  | nil => simp
  | cons x xs ih =>
    simp only [List.map_cons, List.sum_cons]
    have := sq_nonneg (x - c)
    linarith

/-! ### The score invariant claimed for `AnswerAnalysis` -/

/-- The invariant the specification claims of every analysis result:
`detailed_scores` holds exactly the five named dimensions and every
numeric score — `overall_rating` included — lies in [1, 10]. -/
def claimed_score_invariant (j : Json) : Bool :=
  match jGet j "overall_rating", jGet j "detailed_scores" with
  | some (Json.num r), some (Json.obj ds) =>
    decide (1 ≤ r ∧ r ≤ 10) &&
    decide (ds.map Prod.fst =
      ["relevance", "completeness", "clarity", "specificity", "professionalism"]) &&
    ds.all (fun kv => match kv.2 with
      | Json.num x => decide (1 ≤ x ∧ x ≤ 10)
      | _ => false)
  | _, _ => false

/-! ### Helper lemmas shared by the claim theorems -/

theorem fallback_bands_cases (wc : ℕ) :
    fallback_bands wc = (3, 2, 4) ∨ fallback_bands wc = (5, 4, 6) ∨
    fallback_bands wc = (7, 7, 7) ∨ fallback_bands wc = (8, 8, 8) := by
  unfold fallback_bands; split_ifs <;> simp

theorem fallback_relevance_cases (a : String) :
    fallback_relevance a = 7 ∨ fallback_relevance a = 5 := by
  unfold fallback_relevance; split_ifs <;> simp

theorem fallback_specificity_cases (a : String) :
    fallback_specificity a = 8 ∨ fallback_specificity a = 6 := by
  unfold fallback_specificity; split_ifs <;> simp

theorem fallback_professionalism_cases (a : String) :
    fallback_professionalism a = 8 ∨ fallback_professionalism a = 6 := by
  unfold fallback_professionalism; split_ifs <;> simp

theorem except_bind_ok {ε α β : Type} (a : α) (f : α → Except ε β) :
    (do let x ← Except.ok a; f x : Except ε β) = f a := rfl

theorem except_bind_error {ε α β : Type} (e : ε) (f : α → Except ε β) :
    (do let x ← Except.error e; f x : Except ε β) = Except.error e := rfl

theorem setKey_of_lookup_none (kvs : List (String × Json)) (k : String) (v : Json)
    (h : List.lookup k kvs = none) : setKey kvs k v = kvs ++ [(k, v)] := by
  induction kvs with
  | nil => rfl
  | cons hd tl ih =>
    obtain ⟨k1, v1⟩ := hd
    have hne : (k == k1) = false := by
      by_cases hk : k = k1
      · exfalso
        rw [List.lookup, hk] at h
        simp at h
      · exact beq_eq_false_iff_ne.mpr hk
    have htl : List.lookup k tl = none := by
      rw [List.lookup, hne] at h
      exact h
    have hkk : ¬(k1 = k) := fun he => by
      rw [beq_eq_false_iff_ne] at hne
      exact hne he.symm
    unfold setKey
    rw [if_neg hkk, ih htl]
    rfl

theorem fallback_catalog_entry_len (qt : String) :
    ((List.lookup qt fallback_questions_catalog).getD [general_q1, general_q2]).length = 2 := by
  by_cases h1 : qt = "technical"
  · subst h1; rfl
  by_cases h2 : qt = "behavioral"
  · subst h2; rfl
  by_cases h3 : qt = "general"
  · subst h3; rfl
  have e1 : (qt == "technical") = false := beq_eq_false_iff_ne.mpr h1
  have e2 : (qt == "behavioral") = false := beq_eq_false_iff_ne.mpr h2
  have e3 : (qt == "general") = false := beq_eq_false_iff_ne.mpr h3
  have hnone : List.lookup qt fallback_questions_catalog = none := by
    simp [fallback_questions_catalog, List.lookup, e1, e2, e3]
  rw [hnone]
  rfl

/-! ### Claim C1 -/

/-- Failing input for C1/C3: a bundle whose millisecond duration lies
strictly between 0 and 60000. -/
def c1_failing_data : InterviewData :=
  { questions := [], answers := [], ratings := [5], duration := 30000 }

/-- All six section calls raising the no-provider-configured failure. -/
def c1_outcomes : ReportOutcomes :=
  { executive_summary := Except.error "No AI provider configured",
    detailed_analysis := Except.error "No AI provider configured",
    strengths_weaknesses := Except.error "No AI provider configured",
    recommendations := Except.error "No AI provider configured",
    next_steps := Except.error "No AI provider configured",
    overall_assessment := Except.error "No AI provider configured" }

/-- C1: questions, follow-ups and answer analysis indeed catch every
provider/contract exception at the generator boundary and return the
deterministic fallback; but `generate_report` violates the claim: with a
duration of 30000 ms the `ZeroDivisionError` of `_calculate_metrics`
escapes both the primary path and the whole-report fallback, reaching the
caller. -/
theorem claim1_boundary :
    (∀ (qt : String) (c : ℕ) (o : Except String Json),
      (generate_questions qt c o).isOk = true) ∧
    (∀ o : Except String Json, (generate_followup_questions o).isOk = true) ∧
    (∀ (q a : String) (o : Except String Json),
      (analyze_answer q a o).isOk = true) ∧
    (∀ (qt : String) (c : ℕ) (e : String),
      generate_questions qt c (Except.error e)
        = Except.ok (Json.arr (get_fallback_questions qt c))) ∧
    (∀ e : String, generate_followup_questions (Except.error e)
        = Except.ok fallback_followup_questions) ∧
    (∀ (q a e : String), analyze_answer q a (Except.error e)
        = Except.ok (get_fallback_analysis q a)) ∧
    generate_report c1_failing_data c1_outcomes "t" "none"
      = Except.error "ZeroDivisionError" := by
  refine ⟨?_, ?_, ?_, ?_, ?_, ?_, ?_⟩
  · intro qt c o
    cases o with
    | error e => rfl
    | ok j => cases j <;> rfl
  · intro o
    cases o with
    | error e => rfl
    | ok j => cases j <;> rfl
  · intro q a o
    cases o with
    | error e => rfl
    | ok j => cases j <;> rfl
  · intro qt c e; rfl
  · intro e; rfl
  · intro q a e; rfl
  · rfl

/-! ### Claim C2 -/

/-- C2 counterexample: on the AI path, `analyze_answer` merges the parsed
response with metadata and returns it without validating or clamping: a
provider response rating 15 with no `detailed_scores` is passed through,
violating the claimed invariant. -/
theorem claim2_counterexample :
    analyze_answer "q" "a" (Except.ok (Json.obj [("overall_rating", Json.num 15)]))
      = Except.ok (Json.obj [("overall_rating", Json.num 15),
          ("analysis_metadata", analysis_metadata_json "q" "a")]) ∧
    claimed_score_invariant (Json.obj [("overall_rating", Json.num 15),
          ("analysis_metadata", analysis_metadata_json "q" "a")]) = false ∧
    ¬ ((15 : ℚ) ≤ 10) := by
  refine ⟨rfl, rfl, by norm_num⟩

/-- C2 (amended): the [1,10]/five-dimension invariant holds on the
fallback path; the AI path returns the parsed object unvalidated, only
augmented with `analysis_metadata`. -/
theorem claim2_amended :
    (∀ q a : String, claimed_score_invariant (get_fallback_analysis q a) = true) ∧
    (∀ (q a : String) (kvs : List (String × Json)),
      List.lookup "analysis_metadata" kvs = none →
      analyze_answer q a (Except.ok (Json.obj kvs))
        = Except.ok (Json.obj (kvs ++ [("analysis_metadata", analysis_metadata_json q a)]))) := by
  constructor
  · intro q a
    rcases fallback_bands_cases (word_count a) with hb | hb | hb | hb <;>
      rcases fallback_relevance_cases a with hr | hr <;>
        rcases fallback_specificity_cases a with hs | hs <;>
          rcases fallback_professionalism_cases a with hp | hp <;>
            (unfold get_fallback_analysis; rw [hb, hr, hs, hp]; rfl)
  · intro q a kvs h
    have ht : analyze_answer_try q a (Except.ok (Json.obj kvs))
        = Except.ok (Json.obj (setKey kvs "analysis_metadata" (analysis_metadata_json q a))) := rfl
    unfold analyze_answer
    rw [ht, setKey_of_lookup_none kvs _ _ h]

/-- C2 witness: a concrete AI-path pass-through. -/
theorem claim2_witness :
    analyze_answer "q" "a" (Except.ok (Json.obj [("x", Json.num 1)]))
      = Except.ok (Json.obj [("x", Json.num 1),
          ("analysis_metadata", analysis_metadata_json "q" "a")]) :=
  claim2_amended.2 "q" "a" [("x", Json.num 1)] rfl

/-! ### Claim C3 -/

/-- C3: the claim says the metrics computation is total with
`questions_per_minute` guarded against division by zero, but for any
duration strictly between 0 and 60000 ms (here 30000) the guard
`duration > 0` passes while the divisor `duration // 60000` is 0, raising
`ZeroDivisionError`; durations 0 and ≥ 60000 succeed. -/
theorem claim3_zero_division :
    calculate_metrics [] [] [5] 30000 = Except.error "ZeroDivisionError" ∧
    (calculate_metrics [] [] [5] 0).isOk = true ∧
    (calculate_metrics [] [] [5] 60000).isOk = true := by
  refine ⟨rfl, rfl, rfl⟩

/-! ### Claim C4 -/

/-- Interview data on which report assembly itself throws: the answer is
a dict without an `answer` key, so `_extract_key_insights` calls
`.lower()` on a dict and raises `AttributeError`. -/
def c4_bad_data : InterviewData :=
  { questions := [Json.str "q1"], answers := [Json.obj []], ratings := [5], duration := 0 }

/-- Section outcomes that all succeed (empty objects). -/
def c4_outcomes : ReportOutcomes :=
  { executive_summary := Except.ok (Json.obj []),
    detailed_analysis := Except.ok (Json.obj []),
    strengths_weaknesses := Except.ok (Json.obj []),
    recommendations := Except.ok (Json.obj []),
    next_steps := Except.ok (Json.obj []),
    overall_assessment := Except.ok (Json.obj []) }

/-- C4 counterexample: when assembly throws, the whole-report fallback is
returned, but it lacks the `detailed_analysis`, `strengths_weaknesses`,
`next_steps` and `qa_analysis` sections of a primary report — not the
same schema shape. -/
theorem claim4_counterexample :
    (primary_report c4_bad_data c4_outcomes "t" "gemini").isOk = false ∧
    (generate_report c4_bad_data c4_outcomes "t" "gemini").isOk = true ∧
    jGet ((generate_report c4_bad_data c4_outcomes "t" "gemini").toOption.getD Json.null)
      "qa_analysis" = none ∧
    jGet ((generate_report c4_bad_data c4_outcomes "t" "gemini").toOption.getD Json.null)
      "detailed_analysis" = none ∧
    jGet ((generate_report c4_bad_data c4_outcomes "t" "gemini").toOption.getD Json.null)
      "strengths_weaknesses" = none ∧
    jGet ((generate_report c4_bad_data c4_outcomes "t" "gemini").toOption.getD Json.null)
      "next_steps" = none := by
  refine ⟨rfl, rfl, rfl, rfl, rfl, rfl⟩

/-- C4 (amended): whenever the whole-report fallback completes it has
exactly the five sections `report_metadata`, `executive_summary`,
`overall_assessment`, `metrics`, `recommendations`; a completed primary
report has the nine claimed sections. -/
theorem claim4_amended : ∀ (d : InterviewData) (now : String),
    (∀ j : Json, get_fallback_report d now = Except.ok j →
      jKeys j = ["report_metadata", "executive_summary", "overall_assessment",
        "metrics", "recommendations"]) ∧
    (∀ (o : ReportOutcomes) (pn : String) (j : Json),
      primary_report d o now pn = Except.ok j →
      jKeys j = ["report_metadata", "executive_summary", "overall_assessment",
        "metrics", "detailed_analysis", "strengths_weaknesses", "recommendations",
        "next_steps", "qa_analysis"]) := by
  intro d now
  constructor
  · intro j h
    unfold get_fallback_report at h
    cases hm : calculate_metrics d.questions d.answers d.ratings d.duration with
    | error e =>
      rw [hm, except_bind_error] at h
      simp at h
    | ok m =>
      rw [hm] at h
      simp only [except_bind_ok, Except.ok.injEq] at h
      subst h
      rfl
  · intro o pn j h
    unfold primary_report at h
    cases hm : calculate_metrics d.questions d.answers d.ratings d.duration with
    | error e =>
      rw [hm, except_bind_error] at h
      simp at h
    | ok m =>
      rw [hm] at h
      simp only [except_bind_ok] at h
      cases hq : generate_qa_analysis d.questions d.answers d.ratings with
      | error e =>
        rw [hq, except_bind_error] at h
        simp at h
      | ok qa =>
        rw [hq] at h
        simp only [except_bind_ok, Except.ok.injEq] at h
        subst h
        rfl

/-- Interview data for which both paths complete. -/
def c4_good_data : InterviewData :=
  { questions := [Json.str "q1"], answers := [Json.str "a1"], ratings := [5], duration := 0 }

/-- C4 witness: the amended key lists, at concrete inputs. -/
theorem claim4_witness :
    jKeys ((get_fallback_report c4_good_data "t").toOption.getD Json.null)
      = ["report_metadata", "executive_summary", "overall_assessment",
         "metrics", "recommendations"] ∧
    jKeys ((primary_report c4_good_data c4_outcomes "t" "gemini").toOption.getD Json.null)
      = ["report_metadata", "executive_summary", "overall_assessment",
         "metrics", "detailed_analysis", "strengths_weaknesses", "recommendations",
         "next_steps", "qa_analysis"] := by
  constructor
  · exact (claim4_amended c4_good_data "t").1 _ rfl
  · exact (claim4_amended c4_good_data "t").2 c4_outcomes "gemini" _ rfl

/-! ### Claim C5 -/

/-- The model response of the round-trip scenario: prose followed by the
JSON object. -/
def c5_full_text : String :=
  "Sure! \x7b\"question\":\"Why?\",\"category\":\"General\",\"difficulty\":\"easy\",\"purpose\":\"warmup\"\x7d"

/-- The greedy first-`\x7b`-to-last-`\x7d` span of `c5_full_text`. -/
def c5_inner_text : String :=
  "\x7b\"question\":\"Why?\",\"category\":\"General\",\"difficulty\":\"easy\",\"purpose\":\"warmup\"\x7d"

/-- The embedded object the contract must return. -/
def c5_target : Json := Json.obj
  [("question", Json.str "Why?"),
   ("category", Json.str "General"),
   ("difficulty", Json.str "easy"),
   ("purpose", Json.str "warmup")]

/-- C5: the contract parses in two stages — any text that parses directly
is returned as-is, and on the scenario text the direct parse fails, the
brace span is extracted, and the second-stage parse returns exactly the
embedded object. -/
theorem claim5_two_stage :
    (∀ (s : String) (j : Json), json_loads s = some j →
      generate_structured_response s = Except.ok j) ∧
    json_loads c5_full_text = none ∧
    extract_brace_span c5_full_text = some c5_inner_text ∧
    json_loads c5_inner_text = some c5_target ∧
    generate_structured_response c5_full_text = Except.ok c5_target := by
  refine ⟨?_, rfl, rfl, rfl, rfl⟩
  intro s j h
  unfold generate_structured_response
  rw [h]

/-- C5 witness: stage 1 at a concrete directly-parsable text. -/
theorem claim5_witness :
    generate_structured_response "[]" = Except.ok (Json.arr []) :=
  claim5_two_stage.1 "[]" (Json.arr []) (by rfl)

/-! ### Claim C6 -/

/-- C6 counterexample: for ratings [1, 2, 4] the mean is 7/3 and
`10 − min(9, variance)` is 76/9, but the code stores the values rounded
to 2 decimals — 2.33 and 8.44 — so `consistency_score` is not
`10 − min(9, v)` and `average_rating` differs from the mean by 1/300,
far beyond floating rounding. -/
theorem claim6_counterexample :
    num_at ((calculate_metrics [] [] [1, 2, 4] 0).toOption.getD Json.null)
      "average_rating"
      = some (pyRound2 (([1, 2, 4] : List ℚ).sum / (([1, 2, 4] : List ℚ).length : ℚ))) ∧
    pyRound2 (([1, 2, 4] : List ℚ).sum / (([1, 2, 4] : List ℚ).length : ℚ)) = 233 / 100 ∧
    ([1, 2, 4] : List ℚ).sum / (([1, 2, 4] : List ℚ).length : ℚ) = 7 / 3 ∧
    (233 / 100 : ℚ) ≠ 7 / 3 ∧
    |(233 / 100 : ℚ) - 7 / 3| > 1 / 1000 ∧
    num_at ((calculate_metrics [] [] [1, 2, 4] 0).toOption.getD Json.null)
      "consistency_score"
      = some (pyRound2 (10 - min 9
          ((([1, 2, 4] : List ℚ).map
            (fun x => (x - ([1, 2, 4] : List ℚ).sum / (([1, 2, 4] : List ℚ).length : ℚ)) ^ 2)).sum
            / (([1, 2, 4] : List ℚ).length : ℚ)))) ∧
    pyRound2 (10 - min 9
          ((([1, 2, 4] : List ℚ).map
            (fun x => (x - ([1, 2, 4] : List ℚ).sum / (([1, 2, 4] : List ℚ).length : ℚ)) ^ 2)).sum
            / (([1, 2, 4] : List ℚ).length : ℚ))) = 211 / 25 ∧
    10 - min 9
          ((([1, 2, 4] : List ℚ).map
            (fun x => (x - ([1, 2, 4] : List ℚ).sum / (([1, 2, 4] : List ℚ).length : ℚ)) ^ 2)).sum
            / (([1, 2, 4] : List ℚ).length : ℚ)) = 76 / 9 ∧
    (211 / 25 : ℚ) ≠ 76 / 9 := by
  have hs : ([1, 2, 4] : List ℚ).sum = 7 := by norm_num
  have hl : (([1, 2, 4] : List ℚ).length : ℚ) = 3 := by norm_num
  have havg : ([1, 2, 4] : List ℚ).sum / (([1, 2, 4] : List ℚ).length : ℚ) = 7 / 3 := by
    rw [hs, hl]
  have hvar : (([1, 2, 4] : List ℚ).map
      (fun x => (x - ([1, 2, 4] : List ℚ).sum / (([1, 2, 4] : List ℚ).length : ℚ)) ^ 2)).sum
      / (([1, 2, 4] : List ℚ).length : ℚ) = 14 / 9 := by
    rw [hl]
    norm_num [havg]
  have hcons : 10 - min 9
      ((([1, 2, 4] : List ℚ).map
        (fun x => (x - ([1, 2, 4] : List ℚ).sum / (([1, 2, 4] : List ℚ).length : ℚ)) ^ 2)).sum
        / (([1, 2, 4] : List ℚ).length : ℚ)) = 76 / 9 := by
    rw [hvar, min_eq_right (by norm_num)]
    norm_num
  have hfloor1 : (⌊(100 * (7 / 3 : ℚ))⌋ : ℤ) = 233 := by
    rw [show (100 * (7 / 3 : ℚ)) = 700 / 3 by norm_num, Int.floor_eq_iff]
    norm_num
  have hround1 : pyRound2 (7 / 3) = 233 / 100 := by
    unfold pyRound2 roundHalfEven
    rw [hfloor1]
    norm_num
  have hfloor2 : (⌊(100 * (76 / 9 : ℚ))⌋ : ℤ) = 844 := by
    rw [show (100 * (76 / 9 : ℚ)) = 7600 / 9 by norm_num, Int.floor_eq_iff]
    norm_num
  have hround2 : pyRound2 (76 / 9) = 211 / 25 := by
    unfold pyRound2 roundHalfEven
    rw [hfloor2]
    norm_num
  refine ⟨by rfl, ?_, havg, by norm_num, ?_, by rfl, ?_, hcons, by norm_num⟩
  · rw [havg, hround1]
  · rw [show (233 / 100 : ℚ) - 7 / 3 = -(1 / 300) by norm_num, abs_neg,
      abs_of_pos (by norm_num : (0 : ℚ) < 1 / 300)]
    norm_num
  · rw [hcons, hround2]

/-- C6 (amended): for every non-empty rating list the computation stores
`round(mean, 2)` and `round(10 − min(9, variance), 2)`; the rounded
consistency score still lies in [1, 10] and the rounded average is within
1/200 of the true mean. -/
theorem claim6_amended : ∀ (qs as : List Json) (r : ℚ) (rs : List ℚ) (d : ℤ) (j : Json),
    calculate_metrics qs as (r :: rs) d = Except.ok j →
    jGet j "average_rating"
      = some (Json.num (pyRound2 ((r :: rs).sum / ((r :: rs).length : ℚ)))) ∧
    |pyRound2 ((r :: rs).sum / ((r :: rs).length : ℚ))
      - (r :: rs).sum / ((r :: rs).length : ℚ)| ≤ 1 / 200 ∧
    jGet j "consistency_score"
      = some (Json.num (pyRound2 (10 - min 9
          (((r :: rs).map (fun x => (x - (r :: rs).sum / ((r :: rs).length : ℚ)) ^ 2)).sum
            / ((r :: rs).length : ℚ))))) ∧
    1 ≤ pyRound2 (10 - min 9
          (((r :: rs).map (fun x => (x - (r :: rs).sum / ((r :: rs).length : ℚ)) ^ 2)).sum
            / ((r :: rs).length : ℚ))) ∧
    pyRound2 (10 - min 9
          (((r :: rs).map (fun x => (x - (r :: rs).sum / ((r :: rs).length : ℚ)) ^ 2)).sum
            / ((r :: rs).length : ℚ))) ≤ 10 := by
  intro qs as r rs d j h
  have hvar : 0 ≤ ((r :: rs).map (fun x => (x - (r :: rs).sum / ((r :: rs).length : ℚ)) ^ 2)).sum
      / ((r :: rs).length : ℚ) := by
    apply div_nonneg (list_sum_sq_nonneg _ _)
    positivity
  have hmin_le : min (9 : ℚ)
      (((r :: rs).map (fun x => (x - (r :: rs).sum / ((r :: rs).length : ℚ)) ^ 2)).sum
        / ((r :: rs).length : ℚ)) ≤ 9 := min_le_left _ _
  have hmin_ge : (0 : ℚ) ≤ min 9
      (((r :: rs).map (fun x => (x - (r :: rs).sum / ((r :: rs).length : ℚ)) ^ 2)).sum
        / ((r :: rs).length : ℚ)) := le_min (by norm_num) hvar
  have hrange := pyRound2_mem_Icc
    (10 - min 9 (((r :: rs).map (fun x => (x - (r :: rs).sum / ((r :: rs).length : ℚ)) ^ 2)).sum
        / ((r :: rs).length : ℚ)))
    (by linarith) (by linarith)
  simp only [calculate_metrics] at h
  cases hq : questions_per_minute qs.length d with
  | error e =>
    rw [hq, except_bind_error] at h
    simp at h
  | ok qpm =>
    rw [hq] at h
    simp only [except_bind_ok, Except.ok.injEq] at h
    subst h
    exact ⟨rfl, abs_pyRound2_sub _, rfl, hrange.1, hrange.2⟩

/-- C6 witness: the amended statement at ratings [1, 2, 4]. -/
theorem claim6_witness :
    jGet ((calculate_metrics [] [] [1, 2, 4] 0).toOption.getD Json.null)
      "average_rating"
      = some (Json.num (pyRound2 (([1, 2, 4] : List ℚ).sum / (([1, 2, 4] : List ℚ).length : ℚ)))) ∧
    1 ≤ pyRound2 (10 - min 9
          ((([1, 2, 4] : List ℚ).map
            (fun x => (x - ([1, 2, 4] : List ℚ).sum / (([1, 2, 4] : List ℚ).length : ℚ)) ^ 2)).sum
            / (([1, 2, 4] : List ℚ).length : ℚ))) := by
  have h := claim6_amended [] [] 1 [2, 4] 0
    ((calculate_metrics [] [] [1, 2, 4] 0).toOption.getD Json.null) rfl
  exact ⟨h.1, h.2.2.2.1⟩

/-! ### Claim C7 -/

/-- C7: the fallback analysis rates purely by word-count band
(<10 → 3, <30 → 5, <60 → 7, else 8), a 5-word answer gets exactly 3, and
sentiment/confidence are derived from that rating by the claimed
thresholds. -/
theorem claim7_fallback_bands : ∀ (q a : String),
    jGet (get_fallback_analysis q a) "overall_rating"
      = some (Json.num (fallback_bands (word_count a)).1) ∧
    (fallback_bands (word_count a)).1
      = (if word_count a < 10 then (3 : ℚ) else if word_count a < 30 then 5
         else if word_count a < 60 then 7 else 8) ∧
    (word_count a = 5 → (fallback_bands (word_count a)).1 = 3) ∧
    jGet (get_fallback_analysis q a) "sentiment"
      = some (Json.str (if (fallback_bands (word_count a)).1 ≥ 7 then "positive"
                        else if (fallback_bands (word_count a)).1 ≥ 5 then "neutral"
                        else "negative")) ∧
    jGet (get_fallback_analysis q a) "confidence_level"
      = some (Json.str (if (fallback_bands (word_count a)).1 ≥ 8 then "high"
                        else if (fallback_bands (word_count a)).1 ≥ 6 then "medium"
                        else "low")) := by
  intro q a
  refine ⟨rfl, ?_, ?_, rfl, rfl⟩
  · unfold fallback_bands
    split_ifs <;> rfl
  · intro h
    rw [h]
    rfl

/-- C7 witness: a concrete 5-word answer is rated 3, with negative
sentiment and low confidence. -/
theorem claim7_witness :
    word_count "one two three four five" = 5 ∧
    jGet (get_fallback_analysis "Tell me about it" "one two three four five")
      "overall_rating" = some (Json.num 3) ∧
    jGet (get_fallback_analysis "Tell me about it" "one two three four five")
      "sentiment" = some (Json.str "negative") ∧
    jGet (get_fallback_analysis "Tell me about it" "one two three four five")
      "confidence_level" = some (Json.str "low") := by
  have h := claim7_fallback_bands "Tell me about it" "one two three four five"
  have h3 : (fallback_bands (word_count "one two three four five")).1 = 3 :=
    h.2.2.1 (by decide)
  refine ⟨by decide, h3 ▸ h.1, ?_, ?_⟩
  · have hs := h.2.2.2.1
    rw [h3] at hs
    simpa using hs
  · have hc := h.2.2.2.2
    rw [h3] at hc
    simpa using hc

/-! ### Claim C8 -/

/-- C8: configuring an unknown provider or an empty API key returns
`False` and leaves the active provider untouched; only on success is the
pair replaced. -/
theorem claim8_configure : ∀ (s : AIServiceState) (p k : String) (m : Option String),
    (p ∉ providers_names → configure_provider s p k m = (false, s)) ∧
    (k = "" → configure_provider s p k m = (false, s)) ∧
    ((configure_provider s p k m).1 = false → (configure_provider s p k m).2 = s) ∧
    ((configure_provider s p k m).1 = true →
      (configure_provider s p k m).2.current_provider = some p ∧
      (configure_provider s p k m).2.current_instance ≠ none) := by
  intro s p k m
  by_cases hp : p ∈ providers_names <;> by_cases hk : k = "" <;>
    simp [configure_provider, validate_config, hp, hk]

/-- C8 witness: an unknown provider name fails and leaves the previously
configured provider in place; an empty key fails. -/
theorem claim8_witness :
    configure_provider ⟨some "gemini", some ⟨"gemini", "key", "gemini-2.5-flash"⟩⟩
      "unknown" "key2" none
      = (false, ⟨some "gemini", some ⟨"gemini", "key", "gemini-2.5-flash"⟩⟩) ∧
    configure_provider ⟨none, none⟩ "gemini" "" none = (false, ⟨none, none⟩) := by
  constructor
  · exact (claim8_configure ⟨some "gemini", some ⟨"gemini", "key", "gemini-2.5-flash"⟩⟩
      "unknown" "key2" none).1 (by decide)
  · exact (claim8_configure ⟨none, none⟩ "gemini" "" none).2.1 rfl

/-! ### Claim C9 -/

/-- C9: when the structured response parses to an object without a
`questions` key, `generate_questions` returns the empty list, not the
fallback catalog; the fallback is produced exactly by the exception
path. -/
theorem claim9_missing_key :
    (∀ (qt : String) (c : ℕ) (kvs : List (String × Json)),
      List.lookup "questions" kvs = none →
      generate_questions qt c (Except.ok (Json.obj kvs)) = Except.ok (Json.arr [])) ∧
    (∀ (qt : String) (c : ℕ) (e : String),
      generate_questions qt c (Except.error e)
        = Except.ok (Json.arr (get_fallback_questions qt c))) ∧
    Json.arr (get_fallback_questions "general" 5) ≠ Json.arr [] := by
  refine ⟨?_, ?_, ?_⟩
  · intro qt c kvs h
    have ht : generate_questions_try (Except.ok (Json.obj kvs))
        = Except.ok ((List.lookup "questions" kvs).getD (Json.arr [])) := rfl
    unfold generate_questions
    rw [ht, h]
    rfl
  · intro qt c e; rfl
  · intro h
    simp [get_fallback_questions, fallback_questions_catalog, List.lookup] at h

/-- C9 witness: a concrete parsed object with no `questions` key yields
the empty list. -/
theorem claim9_witness :
    generate_questions "general" 5 (Except.ok (Json.obj [("other", Json.num 1)]))
      = Except.ok (Json.arr []) :=
  claim9_missing_key.1 "general" 5 [("other", Json.num 1)] rfl

/-! ### Claim C10 -/

/-- C10: the fallback catalog has entries exactly for `technical`,
`behavioral` and `general`, two questions each, so every request gets at
most two fallback questions, and `leadership` / `culture_fit` — which do
have their own prompt instructions — fall back to the `general`
catalog. -/
theorem claim10_catalog :
    (∀ (qt : String) (c : ℕ), (get_fallback_questions qt c).length ≤ 2) ∧
    (∀ c : ℕ, get_fallback_questions "leadership" c = get_fallback_questions "general" c) ∧
    (∀ c : ℕ, get_fallback_questions "culture_fit" c = get_fallback_questions "general" c) ∧
    fallback_questions_catalog.map Prod.fst = ["technical", "behavioral", "general"] ∧
    (fallback_questions_catalog.all (fun e => e.2.length == 2)) = true ∧
    "leadership" ∈ type_instruction_keys ∧
    "culture_fit" ∈ type_instruction_keys := by
  refine ⟨?_, ?_, ?_, rfl, rfl, by decide, by decide⟩
  · intro qt c
    unfold get_fallback_questions
    rw [List.length_take]
    have h2 := fallback_catalog_entry_len qt
    unfold get_fallback_questions at h2
    omega
  · intro c; rfl
  · intro c; rfl

end SmartInterviewer
